import Mathlib

/-!
# Verification of the opensearch-alert rule engine and coordination layer

Shallow embedding of the core subsystems of the `opensearch-alert` repository:
the state-store coordination primitives (rule leases, send-time dedup), the
rule engine's trigger predicate and alert emission sequence, the message
renderer, and the notifier fan-out.  Timestamps are modelled as integer
seconds; SQL tables are modelled as association lists / single rows, since
every table involved is keyed by a primary key that the code accesses
point-wise.
-/

namespace OpensearchAlert

/-! ## String helpers (Go `strings` package operations used by the code) -/

/-- Go `strings.Contains(s, sub)`: substring containment on the character
sequence. -/
def strContains (s sub : String) : Bool :=
  s.data.tails.any fun t => sub.data.isPrefixOf t

/-- Go `strings.ToLower` (ASCII letters; CJK characters are unaffected, which
is all the engine's rule names rely on). -/
def strToLower (s : String) : String :=
  String.mk (s.data.map Char.toLower)

/-! ## Rule lease table (`rule_locks`)

`database.go` keeps one row per rule name (`rule_name` is the PRIMARY KEY)
with columns `locked_by` (default `''`), `locked_at` (nullable DATETIME) and
`ttl_seconds` (default 30).  We model the single row addressed by a given
`rule_name`; `Option RuleLockRow` is the state of that row (`none` = row
absent). -/

structure RuleLockRow where
  locked_by : String
  locked_at : Option Int
  ttl_seconds : Int
  deriving Repr, DecidableEq

/-- `AcquireRuleLock` (database.go:518-544).  Both dialects execute:
1. `INSERT (OR) IGNORE INTO rule_locks(rule_name, ttl_seconds) VALUES(?, ?)`
   — creates the row with defaults `locked_by=''`, `locked_at=NULL` if absent;
2. `UPDATE rule_locks SET locked_by=?, locked_at=now
      WHERE rule_name=? AND (locked_at IS NULL
        OR locked_at <= now - ttl_seconds seconds OR locked_by=?)`
   and report `RowsAffected() == 1`.
`now` is the Go-side `time.Now()` in seconds. -/
def AcquireRuleLock (row? : Option RuleLockRow) (instanceID : String)
    (now ttlSeconds : Int) : Bool × RuleLockRow :=
  let row := row?.getD ⟨"", none, ttlSeconds⟩
  let hit :=
    match row.locked_at with
    | none => true
    | some t => t ≤ now - row.ttl_seconds || row.locked_by == instanceID
  if hit then
    (true, { row with locked_by := instanceID, locked_at := some now })
  else
    (false, row)

/-- `ReleaseRuleLock`, SQLite branch (database.go:553-555):
`UPDATE rule_locks SET locked_by='', locked_at = datetime('now','-1 second')
 WHERE rule_name=? AND locked_by=?` — backdates by exactly one second. -/
def ReleaseRuleLockSqlite (row : RuleLockRow) (instanceID : String)
    (now : Int) : RuleLockRow :=
  if row.locked_by == instanceID then
    { row with locked_by := "", locked_at := some (now - 1) }
  else
    row

/-- `ReleaseRuleLock`, MySQL branch (database.go:549-551):
`UPDATE rule_locks SET locked_by='', locked_at = DATE_SUB(NOW(), INTERVAL
 ttl_seconds SECOND) WHERE rule_name=? AND locked_by=?` — backdates by the
row's own `ttl_seconds`. -/
def ReleaseRuleLockMysql (row : RuleLockRow) (instanceID : String)
    (now : Int) : RuleLockRow :=
  if row.locked_by == instanceID then
    { row with locked_by := "", locked_at := some (now - row.ttl_seconds) }
  else
    row

/-- A non-empty holder `h` owns an unexpired lease on the row at instant
`now` (spec §3 invariant 2: `acquiredAt + ttlSeconds > now`). -/
def holdsUnexpiredLease (row : RuleLockRow) (now : Int) (h : String) : Prop :=
  row.locked_by = h ∧ h ≠ "" ∧
    ∃ t, row.locked_at = some t ∧ now < t + row.ttl_seconds

/-! ## Send-time dedup table (`alert_dedupe`)

One row per `dedupe_key` (`rule_name + "|" + level + "|" + SHA1(message)`,
PRIMARY KEY); the only column the code ever reads back is `last_sent`, so the
table is modelled as an association list `dedupe_key ↦ last_sent` (seconds).
The SHA1 keying itself is injective renaming of keys and is not modelled:
claims quantify over the dedupe key. -/

def DedupStore := List (String × Int)

/-- Point lookup by primary key (`SELECT last_sent … WHERE dedupe_key=?`). -/
def DedupStore.find (store : DedupStore) (key : String) : Option Int :=
  match store with
  | [] => none
  | (k, v) :: rest => if k == key then some v else DedupStore.find rest key

/-- `UPDATE alert_dedupe SET last_sent=? WHERE dedupe_key=?`: rewrites the
row if present, touches nothing otherwise. -/
def DedupStore.touch (store : DedupStore) (key : String) (now : Int) :
    DedupStore :=
  match store with
  | [] => []
  | (k, v) :: rest =>
      if k == key then (k, now) :: rest
      else (k, v) :: DedupStore.touch rest key now

/-- Outcome of one `ShouldSendAndTouch` call: the Go `(bool, error)` pair plus
the table state after the call. -/
structure DedupResult where
  send : Bool
  errored : Bool
  store : DedupStore

/-- `ShouldSendAndTouch`, SQLite branch (database.go:598-652), with injectable
transient failures for the two fallible statements the code checks
(`selectErr` for the `QueryRow … Scan`, `updateErr` for the final `UPDATE`).

Control flow of the Go code:
1. normalise `ttlSeconds <= 0` to 120 (lines 599-601);
2. `INSERT OR IGNORE INTO alert_dedupe(…, last_sent, ttl_seconds)
      VALUES(?, '', ?, ?, ?, datetime(?, '-' || ttl_seconds || ' seconds'), ?)`
   (line 630).  SQLite rejects the reference to the column `ttl_seconds`
   inside a `VALUES` expression with the prepare-time error
   `no such column: ttl_seconds`; the statement inserts nothing, and the Go
   code discards the error (`_, _ = d.db.Exec(…)`).  The step is therefore a
   no-op on the table, which the embedding models faithfully;
3. `SELECT last_sent … WHERE dedupe_key=?` — `sql.ErrNoRows` leaves
   `lastSent` at the zero time (modelled by `none`), any other error returns
   `(false, err)`;
4. if `lastSent` is set and `lastSent > now - ttl`, return `(false, nil)`;
5. `UPDATE … SET last_sent=now WHERE dedupe_key=?` — on error return
   `(false, err)`, else return `(true, nil)`. -/
def ShouldSendAndTouch (selectErr updateErr : Bool) (store : DedupStore)
    (key : String) (now ttlSeconds : Int) : DedupResult :=
  let ttl := if ttlSeconds ≤ 0 then 120 else ttlSeconds
  -- step 2: the placeholder INSERT fails on SQLite and is ignored
  if selectErr then
    ⟨false, true, store⟩
  else
    match store.find key with
    | some lastSent =>
        if now - ttl < lastSent then
          ⟨false, false, store⟩
        else if updateErr then
          ⟨false, true, store⟩
        else
          ⟨true, false, store.touch key now⟩
    | none =>
        -- ErrNoRows: lastSent stays zero, the TTL test is skipped
        if updateErr then
          ⟨false, true, store⟩
        else
          ⟨true, false, store.touch key now⟩

/-! ## Dynamic JSON documents (`map[string]interface{}` in the Go source)

The search store's `_source` documents are untyped JSON trees.  Go's
`encoding/json` decodes objects to `map[string]interface{}`; we model the
tree with an inductive type and objects as association lists.  Numbers are
modelled as integers (`encoding/json` produces `float64`; no claim depends on
fractional values). -/

inductive JsonVal where
  | str (s : String)
  | num (n : Int)
  | boolean (b : Bool)
  | null
  | obj (fields : List (String × JsonVal))
  | arr (elems : List JsonVal)
  deriving Inhabited

/-- A decoded `_source` object. -/
def Source := List (String × JsonVal)

/-- Go map indexing `data[key]` (missing key yields the nil interface). -/
def Source.get (data : Source) (key : String) : Option JsonVal :=
  match data with
  | [] => none
  | (k, v) :: rest => if k == key then some v else Source.get rest key

def lbrace : Char := Char.ofNat 123
def rbrace : Char := Char.ofNat 125

mutual

/-- Minimal `json.Marshal` used by `getValueByPath`'s default case (objects
and arrays; primitive leaves are handled before it in the Go switch; field
order is preserved rather than key-sorted). -/
def jsonMarshal : JsonVal → String
  | .str s => "\"" ++ s ++ "\""
  | .num n => toString n
  | .boolean b => if b then "true" else "false"
  | .null => "null"
  | .obj fields => "\x7b" ++ String.intercalate "," (jsonFields fields) ++ "\x7d"
  | .arr elems => "[" ++ String.intercalate "," (jsonElems elems) ++ "]"

def jsonFields : List (String × JsonVal) → List String
  | [] => []
  | (k, v) :: rest => ("\"" ++ k ++ "\":" ++ jsonMarshal v) :: jsonFields rest

def jsonElems : List JsonVal → List String
  | [] => []
  | v :: rest => jsonMarshal v :: jsonElems rest

end

/-! ## Civil time (Go `time` library calls made by the renderer)

The renderer parses RFC-3339 timestamps and reformats them as
`"2006-01-02 15:04:05"` in the fixed zone CST (UTC+8), and the default
template formats `time.Now()` the same way.  Instants are epoch seconds
(`Int`); the proleptic-Gregorian conversions below use the standard
era-based civil-calendar algorithms with floor division. -/

/-- Days since 1970-01-01 of the civil date `(y, m, d)`. -/
def daysFromCivil (y m d : Int) : Int :=
  let y' := if m ≤ 2 then y - 1 else y
  let era := Int.fdiv y' 400
  let yoe := y' - era * 400
  let mp := Int.fmod (m + 9) 12
  let doy := Int.fdiv (153 * mp + 2) 5 + d - 1
  let doe := yoe * 365 + Int.fdiv yoe 4 - Int.fdiv yoe 100 + doy
  era * 146097 + doe - 719468

/-- Civil date of day number `z` (days since 1970-01-01). -/
def civilFromDays (z : Int) : Int × Int × Int :=
  let z' := z + 719468
  let era := Int.fdiv z' 146097
  let doe := z' - era * 146097
  let yoe := Int.fdiv (doe - Int.fdiv doe 1460 + Int.fdiv doe 36524 -
      Int.fdiv doe 146096) 365
  let y := yoe + era * 400
  let doy := doe - (365 * yoe + Int.fdiv yoe 4 - Int.fdiv yoe 100)
  let mp := Int.fdiv (5 * doy + 2) 153
  let d := doy - Int.fdiv (153 * mp + 2) 5 + 1
  let m := if mp < 10 then mp + 3 else mp - 9
  (if m ≤ 2 then y + 1 else y, m, d)

def pad2 (n : Nat) : String :=
  if n < 10 then "0" ++ toString n else toString n

def pad4 (n : Nat) : String :=
  if n < 10 then "000" ++ toString n
  else if n < 100 then "00" ++ toString n
  else if n < 1000 then "0" ++ toString n
  else toString n

/-- Go `t.Format("2006-01-02 15:04:05")` for the instant `t` given in epoch
seconds already shifted into the zone being displayed. -/
def formatDateTime (t : Int) : String :=
  let days := Int.fdiv t 86400
  let secs := (Int.fmod t 86400).toNat
  let ymd := civilFromDays days
  pad4 ymd.1.toNat ++ "-" ++ pad2 ymd.2.1.toNat ++ "-" ++ pad2 ymd.2.2.toNat ++
    " " ++ pad2 (secs / 3600) ++ ":" ++ pad2 (secs / 60 % 60) ++ ":" ++
    pad2 (secs % 60)

def isLeapYear (y : Int) : Bool :=
  Int.fmod y 4 == 0 && (Int.fmod y 100 != 0 || Int.fmod y 400 == 0)

def daysInMonth (y m : Int) : Int :=
  if m == 2 then (if isLeapYear y then 29 else 28)
  else if m == 4 || m == 6 || m == 9 || m == 11 then 30
  else 31

def digitVal (c : Char) : Option Nat :=
  if c.isDigit then some (c.toNat - 48) else none

/-- Read exactly `k` decimal digits from the front of `cs`. -/
def readDigits : Nat → List Char → Option (Nat × List Char)
  | 0, cs => some (0, cs)
  | _ + 1, [] => none
  | k + 1, c :: cs => do
      let d ← digitVal c
      let (rest, cs') ← readDigits k cs
      pure (d * 10 ^ k + rest, cs')

def expectChar (c : Char) : List Char → Option (List Char)
  | [] => none
  | c' :: cs => if c' == c then some cs else none

def dropDigits : List Char → List Char
  | [] => []
  | c :: cs => if c.isDigit then dropDigits cs else c :: cs

/-- Read a two-digit field preceded by the separator `sep`. -/
def readSep2 (sep : Char) (cs : List Char) : Option (Nat × List Char) :=
  match expectChar sep cs with
  | some cs1 => readDigits 2 cs1
  | none => none

/-- Parse the `YYYY-MM-DD` prefix of an RFC-3339 timestamp. -/
def parseDatePart (cs : List Char) : Option (Nat × Nat × Nat × List Char) :=
  match readDigits 4 cs with
  | some (y, cs1) =>
      match readSep2 '-' cs1 with
      | some (mo, cs2) =>
          match readSep2 '-' cs2 with
          | some (d, cs3) => some (y, mo, d, cs3)
          | none => none
      | none => none
  | none => none

/-- Parse the `THH:MM:SS` part of an RFC-3339 timestamp, discarding an
optional fractional-seconds suffix. -/
def parseTimePart (cs : List Char) : Option (Nat × Nat × Nat × List Char) :=
  match readSep2 'T' cs with
  | some (h, cs1) =>
      match readSep2 ':' cs1 with
      | some (mi, cs2) =>
          match readSep2 ':' cs2 with
          | some (sec, cs3) =>
              match cs3 with
              | '.' :: c :: rest =>
                  if c.isDigit then some (h, mi, sec, dropDigits (c :: rest))
                  else some (h, mi, sec, '.' :: c :: rest)
              | other => some (h, mi, sec, other)
          | none => none
      | none => none
  | none => none

/-- Parse the trailing zone designator: `Z` or `±HH:MM`, as an offset in
seconds. -/
def parseOffsetPart (cs : List Char) : Option Int :=
  match cs with
  | ['Z'] => some 0
  | c :: rest =>
      if c == '+' || c == '-' then
        match readDigits 2 rest with
        | some (oh, rest1) =>
            match expectChar ':' rest1 with
            | some rest2 =>
                match readDigits 2 rest2 with
                | some (om, rest3) =>
                    if rest3.isEmpty && oh < 24 && om < 60 then
                      some (if c == '+' then (oh * 3600 + om * 60 : Int)
                            else -(oh * 3600 + om * 60 : Int))
                    else none
                | none => none
            | none => none
        | none => none
      else none
  | [] => none

/-- Go `time.Parse(time.RFC3339, s)`, yielding the UTC epoch seconds
(fractional seconds are accepted and discarded). -/
def parseRFC3339 (s : String) : Option Int :=
  match parseDatePart s.data with
  | some (y, mo, d, cs1) =>
      match parseTimePart cs1 with
      | some (h, mi, sec, cs2) =>
          match parseOffsetPart cs2 with
          | some offset =>
              if 1 ≤ mo && mo ≤ 12 && 1 ≤ d &&
                  (d : Int) ≤ daysInMonth (y : Int) (mo : Int) &&
                  h < 24 && mi < 60 && sec < 60 then
                some (daysFromCivil y mo d * 86400 +
                  h * 3600 + mi * 60 + sec - offset)
              else none
          | none => none
      | none => none
  | none => none

/-! ## Template engine helper extractors (template.go:375-455) -/

/-- `getStringValue`: the value at `key` if it is a string, else `""`. -/
def getStringValue (data : Source) (key : String) : String :=
  match data.get key with
  | some (.str s) => s
  | _ => ""

/-- `getIntValue`: the value at `key` if numeric (Go accepts `int` and
`float64`), else `0`. -/
def getIntValue (data : Source) (key : String) : Int :=
  match data.get key with
  | some (.num n) => n
  | _ => 0

/-- `getMapValue`: the value at `key` if it is a nested object, else an empty
map. -/
def getMapValue (data : Source) (key : String) : Source :=
  match data.get key with
  | some (.obj fields) => fields
  | _ => []

/-- `getTimeValue`: if the value at `key` is a string that parses as
RFC-3339, reformat it in the fixed zone CST (UTC+8) as
`"2006-01-02 15:04:05"`; if it is a non-parsing string return it verbatim;
otherwise `""`. -/
def getTimeValue (data : Source) (key : String) : String :=
  match data.get key with
  | some (.str s) =>
      match parseRFC3339 s with
      | some t => formatDateTime (t + 8 * 3600)
      | none => s
  | _ => ""

/-- `getValueByPath`: walk a dot path through nested objects and render the
leaf as a string (template.go:385-419). -/
def getValueByPath (root : Source) (path : String) : String :=
  if path == "" then ""
  else
    let parts := path.splitOn "."
    let cur := parts.foldl
      (fun (c : Option JsonVal) part =>
        match c with
        | some (.obj m) => Source.get m part
        | _ => none)
      (some (.obj root))
    match cur with
    | some (.str v) => v
    | some (.num n) => toString n
    | some (.boolean b) => if b then "true" else "false"
    | some .null => ""
    | none => ""
    | some v => jsonMarshal v

/-! ## Rule, search response and alert records (pkg/types) -/

/-- `types.AlertRule`, restricted to the fields the evaluation path reads
(`Query`, `QueryKey`, `Realert`, `Alert`, `Enabled` feed the loader and the
query builder only). -/
structure AlertRule where
  name : String
  type : String
  index : String
  threshold : Int
  timeframe : Int
  alertText : String
  alertTextArgs : List String
  level : String
  deriving Repr

/-- `types.OpenSearchHit` (`_score` is never read by the engine or the
renderer and is omitted). -/
structure OpenSearchHit where
  index : String
  id : String
  source : Source

/-- `types.OpenSearchResponse`, restricted to the fields the engine reads:
`Hits.Total.Value` and `Hits.Hits` (`took`, `timed_out`, `_shards`,
`max_score`, `relation` are decoded but only `max_score` is ever copied, into
the opaque `data` snapshot). -/
structure OpenSearchResponse where
  totalValue : Int
  hits : List OpenSearchHit

/-- `types.Alert` as constructed by `triggerAlert` (the opaque `data`
snapshot is omitted: it embeds the floating-point `max_score` and no claim
reads it). -/
structure Alert where
  id : String
  ruleName : String
  level : String
  message : String
  timestamp : Int
  count : Int
  matches' : Int

/-! ## Message renderer (template.go) -/

/-- `detectEventType` (template.go:112-121). -/
def detectEventType (index : String) : String :=
  if strContains index "events" then "events"
  else if strContains index "logging" then "logging"
  else if strContains index "auditing" then "auditing"
  else "default"

/-- Go `log[:500] + "..."` truncation guard (Go counts bytes; the model
counts characters, which agrees on ASCII logs and never affects which fields
a template reads). -/
def truncateLog (s : String) : String :=
  if s.length > 500 then s.take 500 ++ "..." else s

/-- `buildEventAlertMessage` (template.go:124-163). -/
def buildEventAlertMessage (rule : AlertRule) (resp : OpenSearchResponse) :
    String :=
  match resp.hits with
  | [] =>
      "规则 " ++ rule.name ++ " 触发告警，匹配 " ++ toString resp.totalValue ++
        " 条事件记录"
  | hit :: _ =>
      let src := hit.source
      let reason := getStringValue src "reason"
      let message := getStringValue src "message"
      let eventType := getStringValue src "type"
      let involvedObject := getMapValue src "involvedObject"
      let objectKind := getStringValue involvedObject "kind"
      let objectName := getStringValue involvedObject "name"
      let objectNamespace := getStringValue involvedObject "namespace"
      let firstTimestamp := getTimeValue src "firstTimestamp"
      let lastTimestamp := getTimeValue src "lastTimestamp"
      let count := getIntValue src "count"
      "🚨 **Kubernetes 事件告警**\n\n**规则名称:** " ++ rule.name ++
        "\n**事件类型:** " ++ eventType ++
        "\n**事件原因:** " ++ reason ++
        "\n**资源类型:** " ++ objectKind ++
        "\n**资源名称:** " ++ objectName ++
        "\n**命名空间:** " ++ objectNamespace ++
        "\n**事件消息:** " ++ message ++
        "\n**首次发生:** " ++ firstTimestamp ++
        "\n**最后发生:** " ++ lastTimestamp ++
        "\n**发生次数:** " ++ toString count ++
        "\n**匹配记录数:** " ++ toString resp.totalValue

/-- `buildLoggingAlertMessage` (template.go:166-238). -/
def buildLoggingAlertMessage (rule : AlertRule) (resp : OpenSearchResponse) :
    String :=
  match resp.hits with
  | [] =>
      "规则 " ++ rule.name ++ " 触发告警，匹配 " ++ toString resp.totalValue ++
        " 条日志记录"
  | hit :: _ =>
      let src := hit.source
      let log := truncateLog (getStringValue src "log")
      let timestamp := getTimeValue src "@timestamp"
      let kubernetes := getMapValue src "kubernetes"
      let podName := getStringValue kubernetes "pod_name"
      let namespaceName := getStringValue kubernetes "namespace_name"
      let containerName := getStringValue kubernetes "container_name"
      let containerImage := getStringValue kubernetes "container_image"
      let alertType :=
        if strContains rule.name "系统组件" then "系统组件日志告警"
        else if strContains rule.name "Pod" then "Pod日志告警"
        else "应用日志告警"
      let baseInfo :=
        "🚨 **" ++ alertType ++ "**\n\n**时间窗口:** 最近" ++
          toString (rule.timeframe / 60) ++ "分钟\n**阈值:** " ++
          toString rule.threshold ++ "条\n**实际匹配:** " ++
          toString resp.totalValue ++ "条"
      let podInfo :=
        if podName ≠ "" then
          let namespaceLabel :=
            if namespaceName == "kube-system" then "系统命名空间"
            else if namespaceName == "default" then "默认命名空间"
            else if namespaceName == "kubesphere-system" then "KubeSphere系统命名空间"
            else "命名空间"
          let base :=
            "\n\n**Pod 名称:** " ++ podName ++ "\n**" ++ namespaceLabel ++
              ":** " ++ namespaceName ++ "\n**容器名称:** " ++ containerName
          if containerImage ≠ "" then
            base ++ "\n**容器镜像:** " ++ containerImage
          else base
        else ""
      let logInfo :=
        "\n**日志时间:** " ++ timestamp ++
          "\n**错误日志:** \n```\n" ++ log ++
          "\n```\n以上仅为1条示例日志，实际匹配了" ++ toString resp.totalValue ++
          "条错误日志"
      baseInfo ++ podInfo ++ logInfo

/-- `buildSystemComponentLoggingAlertMessage` (template.go:241-313). -/
def buildSystemComponentLoggingAlertMessage (rule : AlertRule)
    (resp : OpenSearchResponse) : String :=
  match resp.hits with
  | [] =>
      "规则 " ++ rule.name ++ " 触发告警，匹配 " ++ toString resp.totalValue ++
        " 条系统组件日志记录"
  | hit :: _ =>
      let src := hit.source
      let log := truncateLog (getStringValue src "log")
      let timestamp := getTimeValue src "@timestamp"
      let kubernetes := getMapValue src "kubernetes"
      let podName := getStringValue kubernetes "pod_name"
      let namespaceName := getStringValue kubernetes "namespace_name"
      let containerName := getStringValue kubernetes "container_name"
      let containerImage := getStringValue kubernetes "container_image"
      let baseInfo :=
        "🚨 **系统组件日志告警**\n\n**时间窗口:** 最近" ++
          toString (rule.timeframe / 60) ++ "分钟\n**阈值:** " ++
          toString rule.threshold ++ "条\n**实际匹配:** " ++
          toString resp.totalValue ++ "条"
      let componentInfo :=
        if podName ≠ "" then
          let componentLabel :=
            if containerName == "kubelet" then "Kubelet组件"
            else if containerName == "dockerd" then "Docker守护进程"
            else if containerName == "kube-apiserver" then "API服务器"
            else if containerName == "kube-controller-manager" then "控制器管理器"
            else if containerName == "kube-scheduler" then "调度器"
            else if containerName == "coredns" then "DNS服务"
            else if containerName == "etcd" then "etcd存储"
            else "组件名称"
          let base :=
            "\n\n**节点名称:** " ++ podName ++ "\n**命名空间:** " ++ namespaceName ++
              "\n**" ++ componentLabel ++ ":** " ++ containerName
          if containerImage ≠ "" then
            base ++ "\n**组件镜像:** " ++ containerImage
          else base
        else ""
      let logInfo :=
        "\n**日志时间:** " ++ timestamp ++
          "\n**错误日志:** \n```\n" ++ log ++
          "\n```\n以上仅为1条示例日志，实际匹配了" ++ toString resp.totalValue ++
          "条系统组件错误日志"
      baseInfo ++ componentInfo ++ logInfo

/-- `buildAuditingAlertMessage` (template.go:316-360). -/
def buildAuditingAlertMessage (rule : AlertRule) (resp : OpenSearchResponse) :
    String :=
  match resp.hits with
  | [] =>
      "规则 " ++ rule.name ++ " 触发告警，匹配 " ++ toString resp.totalValue ++
        " 条审计记录"
  | hit :: _ =>
      let src := hit.source
      let level := getStringValue src "Level"
      let message := getStringValue src "Message"
      let verb := getStringValue src "Verb"
      let timestamp := getTimeValue src "@timestamp"
      let objectRef := getMapValue src "ObjectRef"
      let resource := getStringValue objectRef "Resource"
      let objectName := getStringValue objectRef "Name"
      let objectNamespace := getStringValue objectRef "Namespace"
      let user := getMapValue src "User"
      let username := getStringValue user "Username"
      let userUID := getStringValue user "UID"
      let responseStatus := getMapValue src "ResponseStatus"
      let statusCode := getIntValue responseStatus "code"
      "🚨 **安全审计告警**\n\n**规则名称:** " ++ rule.name ++
        "\n**审计级别:** " ++ level ++
        "\n**操作类型:** " ++ verb ++
        "\n**资源类型:** " ++ resource ++
        "\n**资源名称:** " ++ objectName ++
        "\n**命名空间:** " ++ objectNamespace ++
        "\n**操作用户:** " ++ username ++ " (UID: " ++ userUID ++ ")" ++
        "\n**响应状态:** " ++ toString statusCode ++
        "\n**审计消息:** " ++ message ++
        "\n**操作时间:** " ++ timestamp ++
        "\n**匹配记录数:** " ++ toString resp.totalValue

/-- `buildDefaultAlertMessage` (template.go:363-372).  The Go body calls
`time.Now().Format("2006-01-02 15:04:05")`; the wall clock it reads is the
explicit `now` parameter (epoch seconds in the display zone). -/
def buildDefaultAlertMessage (rule : AlertRule) (resp : OpenSearchResponse)
    (now : Int) : String :=
  "🚨 **OpenSearch 告警**\n\n**规则名称:** " ++ rule.name ++
    "\n**匹配记录数:** " ++ toString resp.totalValue ++
    "\n**告警时间:** " ++ formatDateTime now ++
    "\n**索引模式:** " ++ rule.index

/-- One step of Go's `regexp.MustCompile('\$\x7b([^\x7d]+)\x7d')`
scanning: split `cs` at the first closing brace, if any. -/
def splitAtBrace : List Char → Option (List Char × List Char)
  | [] => none
  | c :: rest =>
      if c == rbrace then some ([], rest)
      else (splitAtBrace rest).map fun p => (c :: p.1, p.2)

/-- `buildCustomAlertMessage`'s placeholder interpolation
(template.go:81-89): every occurrence of a `$`-brace-path-brace placeholder
is replaced by `getValueByPath source path`.  `fuel` bounds the recursion by
the input length (each step consumes at least one character). -/
def interpolateAux (source : Source) : Nat → List Char → List Char
  | 0, cs => cs
  | _ + 1, [] => []
  | fuel + 1, c :: rest =>
      if c == '$' then
        match rest with
        | c2 :: rest2 =>
            if c2 == lbrace then
              match splitAtBrace rest2 with
              | some (inner, after) =>
                  if inner.isEmpty then
                    c :: interpolateAux source fuel (c2 :: rest2)
                  else
                    (getValueByPath source (String.mk inner).trim).data ++
                      interpolateAux source fuel after
              | none => c :: interpolateAux source fuel (c2 :: rest2)
            else c :: interpolateAux source fuel (c2 :: rest2)
        | [] => [c]
      else c :: interpolateAux source fuel rest

/-- `buildCustomAlertMessage` (template.go:71-109): interpolate
`rule.alertText` against the first hit's `_source`, then, when
`alertTextArgs` is non-empty, append the `数据字段` (data fields) block. -/
def buildCustomAlertMessage (rule : AlertRule) (resp : OpenSearchResponse) :
    String :=
  let source : Source := match resp.hits with
    | [] => []
    | hit :: _ => hit.source
  let text := String.mk
    (interpolateAux source rule.alertText.data.length rule.alertText.data)
  if rule.alertTextArgs.isEmpty then text
  else
    text ++ "\n\n数据字段:\n" ++
      rule.alertTextArgs.foldl (fun acc path =>
        let p := path.trim
        if p == "" then acc
        else acc ++ "- " ++ p ++ ": " ++ getValueByPath source p ++ "\n") ""

/-- `BuildAlertMessage` (template.go:21-68): select the template from the
rule's index pattern; when `alertText` is set, prepend the interpolated
custom text to the template-selected details. -/
def BuildAlertMessage (rule : AlertRule) (resp : OpenSearchResponse)
    (now : Int) : String :=
  let eventType := detectEventType rule.index
  let details :=
    if eventType == "events" then buildEventAlertMessage rule resp
    else if eventType == "logging" then
      if strContains rule.name "系统组件" then
        buildSystemComponentLoggingAlertMessage rule resp
      else buildLoggingAlertMessage rule resp
    else if eventType == "auditing" then buildAuditingAlertMessage rule resp
    else buildDefaultAlertMessage rule resp now
  if rule.alertText ≠ "" then
    let custom := buildCustomAlertMessage rule resp
    if custom == "" then details else custom ++ "\n\n" ++ details
  else details

/-! ## Rule engine (engine.go) -/

/-- `shouldTriggerAlert` (engine.go:138-158): the trigger predicate, keyed on
`rule.Type` with `count = response.Hits.Total.Value`. -/
def shouldTriggerAlert (ruleType : String) (count threshold : Int) : Bool :=
  if ruleType == "frequency" then count ≥ threshold
  else if ruleType == "any" then count > 0
  else if ruleType == "spike" then count ≥ threshold
  else if ruleType == "flatline" then count < threshold
  else if ruleType == "change" then count > 0
  else count ≥ threshold

/-- `determineAlertLevel` (engine.go:205-248).  The response argument of the
Go method is never read; the level comes from the rule alone. -/
def determineAlertLevel (rule : AlertRule) : String :=
  if rule.level ≠ "" then rule.level
  else
    let ruleName := strToLower rule.name
    if strContains ruleName "系统组件" && strContains ruleName "错误" then
      "Critical"
    else if strContains ruleName "安全" then "Critical"
    else if strContains ruleName "fatal" || strContains ruleName "panic" then
      "Critical"
    else if strContains ruleName "错误" && !strContains ruleName "系统组件" then
      "High"
    else if strContains ruleName "系统组件" && strContains ruleName "警告" then
      "High"
    else if strContains ruleName "警告" && !strContains ruleName "系统组件" then
      "Medium"
    else "Low"

/-- The externally visible side effects `triggerAlert` can perform after the
dedup gate, in the order the Go code issues them. -/
inductive EngineEffect where
  | sendNotifications
  | saveHistory
  | updateStatus
  | writeback
  deriving Repr, DecidableEq

/-- The dedupe key of `ShouldSendAndTouch` (database.go:603-605):
`ruleName + "|" + level + "|" + SHA1hex(message)`.  The SHA1 digest is kept
abstract: the model uses the message itself as its own digest (the digest is
a fixed deterministic function of the message; hash collisions are outside
the model). -/
def dedupeKeyOf (ruleName level message : String) : String :=
  ruleName ++ "|" ++ level ++ "|" ++ message

/-- `triggerAlert` (engine.go:161-202): build the `Alert`, run the dedup
gate, and — only when it passes — fan out, persist history, update in-memory
suppression and write back, in that order.  Returns the constructed alert,
the dedup outcome, and the list of post-gate effects actually performed. -/
def triggerAlert (selectErr updateErr : Bool) (store : DedupStore)
    (rule : AlertRule) (resp : OpenSearchResponse) (now : Int) :
    Alert × DedupResult × List EngineEffect :=
  let alert : Alert :=
    { id := rule.name ++ "-" ++ toString now
      ruleName := rule.name
      level := determineAlertLevel rule
      message := BuildAlertMessage rule resp now
      timestamp := now
      count := resp.totalValue
      matches' := (resp.hits.length : Int) }
  -- dedupeTTL := 120 (engine.go:177); the dedup error, if any, is only
  -- logged (engine.go:179-181) and the `!shouldSend` test decides
  let dres := ShouldSendAndTouch selectErr updateErr store
    (dedupeKeyOf alert.ruleName alert.level alert.message) now 120
  let effects :=
    if dres.send then
      [EngineEffect.sendNotifications, EngineEffect.saveHistory,
       EngineEffect.updateStatus, EngineEffect.writeback]
    else []
  (alert, dres, effects)

/-! ## Notifier fan-out (`Notifier.SendAlert`) -/

inductive Channel where
  | email
  | dingtalk
  | wechat
  | feishu
  deriving Repr, DecidableEq

/-- The per-channel `enabled` flags of the notifier registry. -/
structure NotifierConfig where
  emailEnabled : Bool
  dingtalkEnabled : Bool
  wechatEnabled : Bool
  feishuEnabled : Bool

def NotifierConfig.enabled (cfg : NotifierConfig) : Channel → Bool
  | .email => cfg.emailEnabled
  | .dingtalk => cfg.dingtalkEnabled
  | .wechat => cfg.wechatEnabled
  | .feishu => cfg.feishuEnabled

/-- The outcome each adapter's `Send(alert)` would produce (`some e` = the
adapter returns error `e`). -/
structure SendOutcomes where
  emailErr : Option String
  dingtalkErr : Option String
  wechatErr : Option String
  feishuErr : Option String

def SendOutcomes.err (out : SendOutcomes) : Channel → Option String
  | .email => out.emailErr
  | .dingtalk => out.dingtalkErr
  | .wechat => out.wechatErr
  | .feishu => out.feishuErr

/-- Result of one `SendAlert` call: the set of channels dispatched to, the
errors collected behind the wait-all barrier, and the function's return
value. -/
structure SendAlertResult where
  dispatched : List Channel
  collected : List String
  ret : Option String

/-- One `if <adapter>.IsEnabled()` block of `SendAlert`: dispatch to the
channel and record its error, if any. -/
def sendStep (cfg : NotifierConfig) (out : SendOutcomes)
    (acc : List Channel × List String) (c : Channel) :
    List Channel × List String :=
  if cfg.enabled c then
    (acc.1 ++ [c],
     match out.err c with
     | some e => acc.2 ++ [e]
     | none => acc.2)
  else acc

/-- `Notifier.SendAlert` (notifier fan-out): spawn one task per enabled
adapter, wait for all of them, collect the errors of the failing ones, log,
and return nil.  The concurrent scatter/gather is modelled by its
post-barrier observable state: which adapters were invoked and which errors
were collected (the collection order under the mutex is immaterial to the
claims; the model fixes the registry order email, dingtalk, wechat,
feishu). -/
def SendAlert (cfg : NotifierConfig) (out : SendOutcomes) : SendAlertResult :=
  let fin := [Channel.email, Channel.dingtalk, Channel.wechat,
    Channel.feishu].foldl (sendStep cfg out) ([], [])
  -- `if len(errors) > 0` the errors are logged; the function then
  -- unconditionally executes `return nil`
  { dispatched := fin.1, collected := fin.2, ret := none }

/-- The extracted values `buildEventAlertMessage` reads from a hit's
`_source`: `reason`, `message`, `type`, the nested
`involvedObject.{kind,name,namespace}`, the two timestamps and `count`.  Two
sources that agree on all of them are indistinguishable to the events
template. -/
def eventsFieldsAgree (s s' : Source) : Prop :=
  getStringValue s "reason" = getStringValue s' "reason" ∧
  getStringValue s "message" = getStringValue s' "message" ∧
  getStringValue s "type" = getStringValue s' "type" ∧
  getStringValue (getMapValue s "involvedObject") "kind" =
    getStringValue (getMapValue s' "involvedObject") "kind" ∧
  getStringValue (getMapValue s "involvedObject") "name" =
    getStringValue (getMapValue s' "involvedObject") "name" ∧
  getStringValue (getMapValue s "involvedObject") "namespace" =
    getStringValue (getMapValue s' "involvedObject") "namespace" ∧
  getTimeValue s "firstTimestamp" = getTimeValue s' "firstTimestamp" ∧
  getTimeValue s "lastTimestamp" = getTimeValue s' "lastTimestamp" ∧
  getIntValue s "count" = getIntValue s' "count"

/-- The extracted values `buildLoggingAlertMessage` and its system-component
variant read from a hit's `_source`: `log`, `@timestamp` and the nested
`kubernetes.{pod_name, namespace_name, container_name, container_image}`.
Two sources that agree on all of them are indistinguishable to both logging
templates. -/
def loggingFieldsAgree (s s' : Source) : Prop :=
  getStringValue s "log" = getStringValue s' "log" ∧
  getTimeValue s "@timestamp" = getTimeValue s' "@timestamp" ∧
  getStringValue (getMapValue s "kubernetes") "pod_name" =
    getStringValue (getMapValue s' "kubernetes") "pod_name" ∧
  getStringValue (getMapValue s "kubernetes") "namespace_name" =
    getStringValue (getMapValue s' "kubernetes") "namespace_name" ∧
  getStringValue (getMapValue s "kubernetes") "container_name" =
    getStringValue (getMapValue s' "kubernetes") "container_name" ∧
  getStringValue (getMapValue s "kubernetes") "container_image" =
    getStringValue (getMapValue s' "kubernetes") "container_image"

/-- The extracted values `buildAuditingAlertMessage` reads from a hit's
`_source`: `Level`, `Message`, `Verb`, `@timestamp`, the nested
`ObjectRef.{Resource,Name,Namespace}`, `User.{Username,UID}` and
`ResponseStatus.code`. -/
def auditingFieldsAgree (s s' : Source) : Prop :=
  getStringValue s "Level" = getStringValue s' "Level" ∧
  getStringValue s "Message" = getStringValue s' "Message" ∧
  getStringValue s "Verb" = getStringValue s' "Verb" ∧
  getTimeValue s "@timestamp" = getTimeValue s' "@timestamp" ∧
  getStringValue (getMapValue s "ObjectRef") "Resource" =
    getStringValue (getMapValue s' "ObjectRef") "Resource" ∧
  getStringValue (getMapValue s "ObjectRef") "Name" =
    getStringValue (getMapValue s' "ObjectRef") "Name" ∧
  getStringValue (getMapValue s "ObjectRef") "Namespace" =
    getStringValue (getMapValue s' "ObjectRef") "Namespace" ∧
  getStringValue (getMapValue s "User") "Username" =
    getStringValue (getMapValue s' "User") "Username" ∧
  getStringValue (getMapValue s "User") "UID" =
    getStringValue (getMapValue s' "User") "UID" ∧
  getIntValue (getMapValue s "ResponseStatus") "code" =
    getIntValue (getMapValue s' "ResponseStatus") "code"

/-- Two sources that render identically under every dot path — the whole
read set available to a custom `alertText` template, whose `$`-brace
placeholders and `alertTextArgs` are resolved through `getValueByPath`. -/
def pathsAgree (s s' : Source) : Prop :=
  ∀ p : String, getValueByPath s p = getValueByPath s' p

/-- Agreement on the read set of whichever template the rule's index pattern
selects. -/
def templateFieldsAgree (rule : AlertRule) (s s' : Source) : Prop :=
  if detectEventType rule.index == "events" then eventsFieldsAgree s s'
  else if detectEventType rule.index == "logging" then loggingFieldsAgree s s'
  else if detectEventType rule.index == "auditing" then
    auditingFieldsAgree s s'
  else True

/-! ## Claim theorems -/

/-- C1.  The claim states that two `ShouldSendAndTouch` calls with the same
rule name, level, message and TTL within TTL seconds yield at most one
`true`, the first call on a fresh key winning via the `last_sent = now - ttl`
placeholder row.  On the SQLite dialect the placeholder `INSERT` references
the column `ttl_seconds` inside its `VALUES` clause, which SQLite rejects at
prepare time (`no such column: ttl_seconds`); the error is discarded, so no
dedupe row is ever inserted, the final `UPDATE` matches no row, and every
call — here two calls 10 seconds apart on a fresh store with TTL 120 —
returns `true`, violating at-most-once.  The store is still empty after both
calls. -/
theorem c1_dedup_not_at_most_once :
    (ShouldSendAndTouch false false [] "r|High|m" 1000 120).send = true ∧
    (ShouldSendAndTouch false false
        (ShouldSendAndTouch false false [] "r|High|m" 1000 120).store
        "r|High|m" 1010 120).send = true ∧
    (ShouldSendAndTouch false false
        (ShouldSendAndTouch false false [] "r|High|m" 1000 120).store
        "r|High|m" 1010 120).store = [] :=
  ⟨rfl, rfl, rfl⟩

/-- C2.  `AcquireRuleLock` returns `true` iff the conditional-update guard
holds on the (insert-if-absent) lease row — `locked_at` NULL, or
`locked_at + ttl_seconds ≤ now` (expired), or the holder is already the
caller — and on a freshly created row it always succeeds; moreover the
single-row-per-rule table admits at most one unexpired holder per rule at
any instant. -/
theorem c2_acquire_lock_iff :
    (∀ (row : RuleLockRow) (id : String) (now ttl : Int),
      (AcquireRuleLock (some row) id now ttl).1 = true ↔
        (row.locked_at = none ∨
         (∃ t, row.locked_at = some t ∧ t + row.ttl_seconds ≤ now) ∨
         row.locked_by = id)) ∧
    (∀ (id : String) (now ttl : Int),
      (AcquireRuleLock none id now ttl).1 = true) ∧
    (∀ (row : RuleLockRow) (now : Int) (a b : String),
      holdsUnexpiredLease row now a → holdsUnexpiredLease row now b →
        a = b) := by
  refine ⟨?_, ?_, ?_⟩
  · intro row id now ttl
    simp only [AcquireRuleLock, Option.getD_some]
    rcases h : row.locked_at with _ | t
    · simp [h]
    · simp only [h, Bool.or_eq_true, decide_eq_true_eq, beq_iff_eq]
      by_cases h1 : t ≤ now - row.ttl_seconds ∨ row.locked_by = id
      · rw [if_pos h1]
        refine iff_of_true rfl ?_
        rcases h1 with h1 | h1
        · exact Or.inr (Or.inl ⟨t, rfl, by omega⟩)
        · exact Or.inr (Or.inr h1)
      · rw [if_neg h1]
        push_neg at h1
        refine iff_of_false (by simp) ?_
        rintro (hbad | ⟨t', ht', hle⟩ | hbad)
        · exact Option.some_ne_none t hbad
        · have ht2 : t = t' := Option.some.inj ht'
          have := h1.1
          omega
        · exact h1.2 hbad
  · intro id now ttl
    rfl
  · rintro row now a b ⟨ha, _, _⟩ ⟨hb, _, _⟩
    rw [← ha, ← hb]

/-- Witness for C2 at concrete inputs: acquiring an absent row succeeds;
acquiring a live row via the iff; and the sole unexpired holder of the row
`⟨"A", 90, 30⟩` at instant 100. -/
theorem c2_acquire_lock_iff_witness :
    (AcquireRuleLock (none : Option RuleLockRow) "A" 100 30).1 = true ∧
    (AcquireRuleLock (some ⟨"A", some 90, 30⟩) "A" 100 30).1 = true ∧
    ("A" : String) = "A" := by
  refine ⟨c2_acquire_lock_iff.2.1 "A" 100 30, ?_, ?_⟩
  · exact (c2_acquire_lock_iff.1 ⟨"A", some 90, 30⟩ "A" 100 30).mpr
      (Or.inr (Or.inr rfl))
  · exact c2_acquire_lock_iff.2.2 ⟨"A", some 90, 30⟩ 100 "A" "A"
      ⟨rfl, by decide, 90, rfl, by decide⟩ ⟨rfl, by decide, 90, rfl, by decide⟩

/-- The post-gate effect list of `triggerAlert` is governed entirely by the
dedup outcome (definitional unfolding helper). -/
theorem triggerAlert_effects (selectErr updateErr : Bool) (store : DedupStore)
    (rule : AlertRule) (resp : OpenSearchResponse) (now : Int) :
    (triggerAlert selectErr updateErr store rule resp now).2.2 =
      if (triggerAlert selectErr updateErr store rule resp now).2.1.send then
        [EngineEffect.sendNotifications, EngineEffect.saveHistory,
         EngineEffect.updateStatus, EngineEffect.writeback]
      else [] := rfl

/-- C3.  Every state-store error path of `ShouldSendAndTouch` (the dedup
`SELECT` scan or the final `UPDATE` failing) yields `send = false`, and
whenever the dedup result is `false`, `triggerAlert` performs no post-gate
effect at all: no notifier fan-out, no history insert (and no suppression
update or writeback either). -/
theorem c3_store_error_skips_send :
    (∀ (selectErr updateErr : Bool) (store : DedupStore) (key : String)
        (now ttl : Int),
      (ShouldSendAndTouch selectErr updateErr store key now ttl).errored =
          true →
        (ShouldSendAndTouch selectErr updateErr store key now ttl).send =
          false) ∧
    (∀ (selectErr updateErr : Bool) (store : DedupStore) (rule : AlertRule)
        (resp : OpenSearchResponse) (now : Int),
      (triggerAlert selectErr updateErr store rule resp now).2.1.send =
          false →
        (triggerAlert selectErr updateErr store rule resp now).2.2 = []) := by
  constructor
  · intro se ue store key now ttl
    simp only [ShouldSendAndTouch]
    repeat' split
    all_goals intro h
    all_goals first
      | rfl
      | exact Bool.noConfusion h
  · intro se ue store rule resp now h
    rw [triggerAlert_effects, h]
    rfl

/-- Witness for C3: a failing dedup `SELECT` at concrete inputs returns
`false`, and the concrete `triggerAlert` run whose dedup result is `false`
performs no effects. -/
theorem c3_store_error_skips_send_witness :
    (ShouldSendAndTouch true false [] "k" 1000 120).send = false ∧
    (triggerAlert true false [] ⟨"r", "any", "idx", 0, 60, "", [], "High"⟩
        ⟨1, []⟩ 0).2.2 = [] := by
  constructor
  · exact c3_store_error_skips_send.1 true false [] "k" 1000 120 rfl
  · exact c3_store_error_skips_send.2 true false []
      ⟨"r", "any", "idx", 0, 60, "", [], "High"⟩ ⟨1, []⟩ 0 rfl

/-- C4 counterexample.  The claim states that a matching release backdates
`acquired_at` at least `ttl_seconds` into the past so the lease is
immediately reclaimable by any replica.  On the SQLite dialect the release
statement backdates by exactly 1 second (`datetime('now','-1 second')`):
releasing the lease `⟨"A", acquired 100, ttl 30⟩` by its holder at instant
100 leaves `locked_at = 99`, which is not `≤ now - ttl = 70`, and an
immediate acquisition attempt by replica `"B"` fails. -/
theorem c4_release_not_reclaimable :
    (ReleaseRuleLockSqlite ⟨"A", some 100, 30⟩ "A" 100).locked_at =
        some 99 ∧
    ¬ ((99 : Int) ≤ 100 - 30) ∧
    (AcquireRuleLock
        (some (ReleaseRuleLockSqlite ⟨"A", some 100, 30⟩ "A" 100))
        "B" 100 30).1 = false :=
  ⟨rfl, by omega, rfl⟩

/-- C4 amended.  Both dialects update the lease row only when its holder is
the caller, and then clear the holder; the MySQL dialect backdates
`acquired_at` by the row's `ttl_seconds`, making the released lease
immediately reclaimable by any replica, while the SQLite dialect backdates
it by exactly one second, so a different (non-empty) replica can reclaim it
at instant `t'` iff `now - 1 + ttl_seconds ≤ t'`. -/
theorem c4_release_amended :
    (∀ (row : RuleLockRow) (id : String) (now : Int), row.locked_by ≠ id →
      ReleaseRuleLockSqlite row id now = row ∧
      ReleaseRuleLockMysql row id now = row) ∧
    (∀ (row : RuleLockRow) (id : String) (now : Int), row.locked_by = id →
      (ReleaseRuleLockSqlite row id now).locked_by = "" ∧
      (ReleaseRuleLockSqlite row id now).locked_at = some (now - 1) ∧
      (ReleaseRuleLockMysql row id now).locked_by = "" ∧
      (ReleaseRuleLockMysql row id now).locked_at =
        some (now - row.ttl_seconds)) ∧
    (∀ (row : RuleLockRow) (id other : String) (now t' : Int),
      row.locked_by = id → now ≤ t' →
      (AcquireRuleLock (some (ReleaseRuleLockMysql row id now)) other t'
          row.ttl_seconds).1 = true) ∧
    (∀ (row : RuleLockRow) (id other : String) (now t' : Int),
      row.locked_by = id → other ≠ "" →
      ((AcquireRuleLock (some (ReleaseRuleLockSqlite row id now)) other t'
          row.ttl_seconds).1 = true ↔ now - 1 + row.ttl_seconds ≤ t')) := by
  refine ⟨?_, ?_, ?_, ?_⟩
  · intro row id now h
    constructor <;>
      simp [ReleaseRuleLockSqlite, ReleaseRuleLockMysql, h]
  · intro row id now h
    simp [ReleaseRuleLockSqlite, ReleaseRuleLockMysql, h]
  · intro row id other now t' h hle
    have hrel : ReleaseRuleLockMysql row id now =
        { row with locked_by := "", locked_at := some (now - row.ttl_seconds) } := by
      simp [ReleaseRuleLockMysql, h]
    rw [hrel]
    simp only [AcquireRuleLock, Option.getD_some, Bool.or_eq_true,
      decide_eq_true_eq, beq_iff_eq]
    rw [if_pos (Or.inl (by omega))]
  · intro row id other now t' h hother
    have hrel : ReleaseRuleLockSqlite row id now =
        { row with locked_by := "", locked_at := some (now - 1) } := by
      simp [ReleaseRuleLockSqlite, h]
    rw [hrel]
    simp only [AcquireRuleLock, Option.getD_some, Bool.or_eq_true,
      decide_eq_true_eq, beq_iff_eq]
    by_cases hc : now - 1 ≤ t' - row.ttl_seconds ∨ ("" : String) = other
    · rw [if_pos hc]
      refine iff_of_true rfl ?_
      rcases hc with hc | hc
      · omega
      · exact absurd hc.symm hother
    · rw [if_neg hc]
      push_neg at hc
      obtain ⟨h1, _⟩ := hc
      refine iff_of_false (by simp) ?_
      intro hle
      omega

/-- Witness for C4 amended at concrete inputs: after the holder `"A"`
releases the lease `⟨"A", 100, 30⟩` at instant 100, replica `"B"` can
reclaim it at instant 129 (`= 100 - 1 + 30`) on the SQLite dialect, and
immediately at instant 100 on the MySQL dialect. -/
theorem c4_release_amended_witness :
    (AcquireRuleLock
        (some (ReleaseRuleLockSqlite ⟨"A", some 100, 30⟩ "A" 100))
        "B" 129 30).1 = true ∧
    (AcquireRuleLock
        (some (ReleaseRuleLockMysql ⟨"A", some 100, 30⟩ "A" 100))
        "B" 100 30).1 = true := by
  constructor
  · exact (c4_release_amended.2.2.2 ⟨"A", some 100, 30⟩ "A" "B" 100 129 rfl
      (by decide)).mpr (by decide)
  · exact c4_release_amended.2.2.1 ⟨"A", some 100, 30⟩ "A" "B" 100 100 rfl
      (by omega)

/-- C5.  The trigger predicate fires exactly as the type table dictates:
`frequency` iff `n ≥ threshold`, `any` iff `n > 0`, `spike` iff
`n ≥ threshold`, `flatline` iff `n < threshold`, `change` iff `n > 0`, and
any unknown type falls back to `n ≥ threshold`. -/
theorem c5_trigger_predicate_table :
    ∀ (n t : Int),
      shouldTriggerAlert "frequency" n t = decide (n ≥ t) ∧
      shouldTriggerAlert "any" n t = decide (n > 0) ∧
      shouldTriggerAlert "spike" n t = decide (n ≥ t) ∧
      shouldTriggerAlert "flatline" n t = decide (n < t) ∧
      shouldTriggerAlert "change" n t = decide (n > 0) ∧
      (∀ ty : String,
        ty ∉ (["frequency", "any", "spike", "flatline", "change"] :
          List String) →
        shouldTriggerAlert ty n t = decide (n ≥ t)) := by
  intro n t
  refine ⟨rfl, rfl, rfl, rfl, rfl, ?_⟩
  intro ty h
  simp only [List.mem_cons, List.not_mem_nil, or_false, not_or] at h
  obtain ⟨h1, h2, h3, h4, h5⟩ := h
  have b1 : (ty == "frequency") = false := beq_eq_false_iff_ne.mpr h1
  have b2 : (ty == "any") = false := beq_eq_false_iff_ne.mpr h2
  have b3 : (ty == "spike") = false := beq_eq_false_iff_ne.mpr h3
  have b4 : (ty == "flatline") = false := beq_eq_false_iff_ne.mpr h4
  have b5 : (ty == "change") = false := beq_eq_false_iff_ne.mpr h5
  simp [shouldTriggerAlert, b1, b2, b3, b4, b5]

/-- Witness for C5 at concrete counts, thresholds and an unknown rule
type. -/
theorem c5_trigger_predicate_table_witness :
    shouldTriggerAlert "frequency" 5 3 = true ∧
    shouldTriggerAlert "flatline" 2 10 = true ∧
    shouldTriggerAlert "unknown-type" 7 7 = true := by
  refine ⟨?_, ?_, ?_⟩
  · exact ((c5_trigger_predicate_table 5 3).1).trans (by decide)
  · exact ((c5_trigger_predicate_table 2 10).2.2.2.1).trans (by decide)
  · exact ((c5_trigger_predicate_table 7 7).2.2.2.2.2 "unknown-type"
      (by decide)).trans (by decide)

/-- C6 counterexample.  The claim states that step 10 (writeback into the
search store) happens before step 11 (in-memory suppression update).  In the
code (engine.go:197-201) `updateAlertStatus` is called before `recordAlert`:
on a concrete emitting evaluation the effect trace places `updateStatus` at
position 2 and `writeback` at position 3, so the writeback is not performed
before the suppression update. -/
theorem c6_writeback_not_before_suppression :
    (triggerAlert false false [] ⟨"r6", "any", "idx", 0, 60, "", [], "High"⟩
        ⟨1, []⟩ 0).2.2 =
      [EngineEffect.sendNotifications, EngineEffect.saveHistory,
       EngineEffect.updateStatus, EngineEffect.writeback] ∧
    ¬ ((triggerAlert false false [] ⟨"r6", "any", "idx", 0, 60, "", [], "High"⟩
        ⟨1, []⟩ 0).2.2.indexOf EngineEffect.writeback <
       (triggerAlert false false [] ⟨"r6", "any", "idx", 0, 60, "", [], "High"⟩
        ⟨1, []⟩ 0).2.2.indexOf EngineEffect.updateStatus) := by
  constructor
  · rfl
  · have h : (triggerAlert false false []
        ⟨"r6", "any", "idx", 0, 60, "", [], "High"⟩ ⟨1, []⟩ 0).2.2 =
        [EngineEffect.sendNotifications, EngineEffect.saveHistory,
         EngineEffect.updateStatus, EngineEffect.writeback] := rfl
    rw [h]
    decide

/-- C6 amended.  Within an emitting evaluation the post-gate steps are
strictly ordered as the code executes them: notifier fan-out, then history
insert, then the in-memory suppression update (spec step 11), then the
writeback (spec step 10) — i.e. the spec's steps 10 and 11 are performed in
the opposite order; a non-emitting evaluation performs none of them. -/
theorem c6_emission_order_amended :
    ∀ (selectErr updateErr : Bool) (store : DedupStore) (rule : AlertRule)
      (resp : OpenSearchResponse) (now : Int),
      ((triggerAlert selectErr updateErr store rule resp now).2.1.send =
          true →
        (triggerAlert selectErr updateErr store rule resp now).2.2 =
          [EngineEffect.sendNotifications, EngineEffect.saveHistory,
           EngineEffect.updateStatus, EngineEffect.writeback]) ∧
      ((triggerAlert selectErr updateErr store rule resp now).2.1.send =
          false →
        (triggerAlert selectErr updateErr store rule resp now).2.2 = []) := by
  intro se ue store rule resp now
  constructor <;> intro h <;>
    rw [triggerAlert_effects se ue store rule resp now, h] <;> rfl

/-- Witness for C6 amended: one concrete emitting run (effects in code
order) and one concrete dedup-errored run (no effects). -/
theorem c6_emission_order_amended_witness :
    (triggerAlert false false []
        ⟨"r6w", "any", "idx", 0, 60, "", [], "High"⟩ ⟨2, []⟩ 5).2.2 =
      [EngineEffect.sendNotifications, EngineEffect.saveHistory,
       EngineEffect.updateStatus, EngineEffect.writeback] ∧
    (triggerAlert true false []
        ⟨"r6w", "any", "idx", 0, 60, "", [], "High"⟩ ⟨2, []⟩ 5).2.2 = [] := by
  constructor
  · exact (c6_emission_order_amended false false []
      ⟨"r6w", "any", "idx", 0, 60, "", [], "High"⟩ ⟨2, []⟩ 5).1 rfl
  · exact (c6_emission_order_amended true false []
      ⟨"r6w", "any", "idx", 0, 60, "", [], "High"⟩ ⟨2, []⟩ 5).2 rfl

/-- `detectEventType` takes one of exactly four values. -/
theorem detectEventType_eq_cases (s : String) :
    detectEventType s = "events" ∨ detectEventType s = "logging" ∨
    detectEventType s = "auditing" ∨ detectEventType s = "default" := by
  unfold detectEventType
  split
  · exact Or.inl rfl
  · split
    · exact Or.inr (Or.inl rfl)
    · split
      · exact Or.inr (Or.inr (Or.inl rfl))
      · exact Or.inr (Or.inr (Or.inr rfl))

/-- C7 counterexample.  The claim includes the default template among the
deterministic ones, but `buildDefaultAlertMessage` formats the wall clock
(`time.Now()`, the model's explicit `now` argument): the same rule and the
same response rendered at two instants one second apart produce different
bytes. -/
theorem c7_default_template_reads_clock :
    BuildAlertMessage ⟨"r1", "frequency", "myidx", 5, 300, "", [], ""⟩
        ⟨7, []⟩ 0 ≠
      BuildAlertMessage ⟨"r1", "frequency", "myidx", 5, 300, "", [], ""⟩
        ⟨7, []⟩ 1 := by
  decide

/-- The events template reads only the `eventsFieldsAgree` set (plus the
total and the rule). -/
theorem buildEventAlertMessage_congr (rule : AlertRule)
    (resp resp' : OpenSearchResponse)
    (htot : resp.totalValue = resp'.totalValue)
    (hcase : (resp.hits = [] ∧ resp'.hits = []) ∨
      (∃ h h' t t', resp.hits = h :: t ∧ resp'.hits = h' :: t' ∧
        eventsFieldsAgree h.source h'.source)) :
    buildEventAlertMessage rule resp = buildEventAlertMessage rule resp' := by
  rcases hcase with ⟨h1, h2⟩ | ⟨h, h', t, t', e1, e2, hag⟩
  · simp only [buildEventAlertMessage, h1, h2, htot]
  · obtain ⟨a1, a2, a3, a4, a5, a6, a7, a8, a9⟩ := hag
    simp only [buildEventAlertMessage, e1, e2]
    rw [a1, a2, a3, a4, a5, a6, a7, a8, a9, htot]

/-- The plain logging template reads only the `loggingFieldsAgree` set. -/
theorem buildLoggingAlertMessage_congr (rule : AlertRule)
    (resp resp' : OpenSearchResponse)
    (htot : resp.totalValue = resp'.totalValue)
    (hcase : (resp.hits = [] ∧ resp'.hits = []) ∨
      (∃ h h' t t', resp.hits = h :: t ∧ resp'.hits = h' :: t' ∧
        loggingFieldsAgree h.source h'.source)) :
    buildLoggingAlertMessage rule resp = buildLoggingAlertMessage rule resp' := by
  rcases hcase with ⟨h1, h2⟩ | ⟨h, h', t, t', e1, e2, hag⟩
  · simp only [buildLoggingAlertMessage, h1, h2, htot]
  · obtain ⟨a1, a2, a3, a4, a5, a6⟩ := hag
    simp only [buildLoggingAlertMessage, e1, e2, a1, a2, a3, a4, a5, a6, htot]

/-- The system-component logging template reads the same
`loggingFieldsAgree` set. -/
theorem buildSystemComponentLoggingAlertMessage_congr (rule : AlertRule)
    (resp resp' : OpenSearchResponse)
    (htot : resp.totalValue = resp'.totalValue)
    (hcase : (resp.hits = [] ∧ resp'.hits = []) ∨
      (∃ h h' t t', resp.hits = h :: t ∧ resp'.hits = h' :: t' ∧
        loggingFieldsAgree h.source h'.source)) :
    buildSystemComponentLoggingAlertMessage rule resp =
      buildSystemComponentLoggingAlertMessage rule resp' := by
  rcases hcase with ⟨h1, h2⟩ | ⟨h, h', t, t', e1, e2, hag⟩
  · simp only [buildSystemComponentLoggingAlertMessage, h1, h2, htot]
  · obtain ⟨a1, a2, a3, a4, a5, a6⟩ := hag
    simp only [buildSystemComponentLoggingAlertMessage, e1, e2, a1, a2, a3,
      a4, a5, a6, htot]

/-- The auditing template reads only the `auditingFieldsAgree` set. -/
theorem buildAuditingAlertMessage_congr (rule : AlertRule)
    (resp resp' : OpenSearchResponse)
    (htot : resp.totalValue = resp'.totalValue)
    (hcase : (resp.hits = [] ∧ resp'.hits = []) ∨
      (∃ h h' t t', resp.hits = h :: t ∧ resp'.hits = h' :: t' ∧
        auditingFieldsAgree h.source h'.source)) :
    buildAuditingAlertMessage rule resp = buildAuditingAlertMessage rule resp' := by
  rcases hcase with ⟨h1, h2⟩ | ⟨h, h', t, t', e1, e2, hag⟩
  · simp only [buildAuditingAlertMessage, h1, h2, htot]
  · obtain ⟨a1, a2, a3, a4, a5, a6, a7, a8, a9, a10⟩ := hag
    simp only [buildAuditingAlertMessage, e1, e2]
    rw [a1, a2, a3, a4, a5, a6, a7, a8, a9, a10, htot]

/-- Placeholder interpolation resolves every `$`-brace placeholder through
`getValueByPath` only: two sources that agree under every dot path
interpolate identically. -/
theorem interpolateAux_congr (s s' : Source) (hp : pathsAgree s s') :
    ∀ (fuel : Nat) (cs : List Char),
      interpolateAux s fuel cs = interpolateAux s' fuel cs := by
  intro fuel
  induction fuel with
  | zero => intro cs; rfl
  | succ n ih =>
      intro cs
      cases cs with
      | nil => rfl
      | cons c rest =>
          cases rest with
          | nil => simp only [interpolateAux, ih]
          | cons c2 rest2 =>
              simp only [interpolateAux]
              split
              · split
                · rcases hsp : splitAtBrace rest2 with _ | p
                  · simp only [hsp, ih]
                  · obtain ⟨inner, after⟩ := p
                    simp only [hsp]
                    split
                    · simp only [ih]
                    · simp only [hp (String.mk inner).trim, ih]
                · simp only [ih]
              · simp only [ih]

/-- A custom `alertText` rendering reads the first hit's source only through
`getValueByPath`: sources agreeing under every dot path produce the same
custom text and the same data-fields block. -/
theorem buildCustomAlertMessage_congr (rule : AlertRule)
    (resp resp' : OpenSearchResponse)
    (hcase : (resp.hits = [] ∧ resp'.hits = []) ∨
      (∃ h h' t t', resp.hits = h :: t ∧ resp'.hits = h' :: t' ∧
        pathsAgree h.source h'.source)) :
    buildCustomAlertMessage rule resp = buildCustomAlertMessage rule resp' := by
  rcases hcase with ⟨h1, h2⟩ | ⟨h, h', t, t', e1, e2, hp⟩
  · simp only [buildCustomAlertMessage, h1, h2]
  · simp only [buildCustomAlertMessage, e1, e2,
      interpolateAux_congr h.source h'.source hp, hp _]

/-- C7 amended.  The renderer is deterministic in (rule, response) whenever
the index pattern selects the events, logging or auditing template —
custom-text rules included — because only the default template formats the
wall clock; and every selected rendering reads only its fields: two
responses with equal hit totals whose first hits agree on the selected
template's documented read set (and, for custom-text rules, under every dot
path, the read set of the `$`-brace placeholders and `alertTextArgs`) render
byte-identically. -/
theorem c7_render_deterministic_amended :
    (∀ (rule : AlertRule) (resp : OpenSearchResponse) (now now' : Int),
      detectEventType rule.index ≠ "default" →
      BuildAlertMessage rule resp now = BuildAlertMessage rule resp now') ∧
    (∀ (rule : AlertRule) (resp resp' : OpenSearchResponse) (now : Int),
      detectEventType rule.index ≠ "default" →
      resp.totalValue = resp'.totalValue →
      ((resp.hits = [] ∧ resp'.hits = []) ∨
       (∃ h h' t t', resp.hits = h :: t ∧ resp'.hits = h' :: t' ∧
         templateFieldsAgree rule h.source h'.source ∧
         (rule.alertText ≠ "" → pathsAgree h.source h'.source))) →
      BuildAlertMessage rule resp now = BuildAlertMessage rule resp' now) := by
  constructor
  · intro rule resp now now' hne
    rcases detectEventType_eq_cases rule.index with h | h | h | h
    · simp [BuildAlertMessage, h]
    · simp [BuildAlertMessage, h]
    · simp [BuildAlertMessage, h]
    · exact absurd h hne
  · intro rule resp resp' now hne htot hcase
    have hcust : rule.alertText ≠ "" →
        buildCustomAlertMessage rule resp = buildCustomAlertMessage rule resp' := by
      intro hat
      refine buildCustomAlertMessage_congr rule resp resp' ?_
      rcases hcase with ⟨h1, h2⟩ | ⟨h, h', t, t', e1, e2, _, hpa⟩
      · exact Or.inl ⟨h1, h2⟩
      · exact Or.inr ⟨h, h', t, t', e1, e2, hpa hat⟩
    rcases detectEventType_eq_cases rule.index with het | het | het | het
    · -- events template
      have hag : (resp.hits = [] ∧ resp'.hits = []) ∨
          (∃ h h' t t', resp.hits = h :: t ∧ resp'.hits = h' :: t' ∧
            eventsFieldsAgree h.source h'.source) := by
        rcases hcase with ⟨h1, h2⟩ | ⟨h, h', t, t', e1, e2, hag, _⟩
        · exact Or.inl ⟨h1, h2⟩
        · refine Or.inr ⟨h, h', t, t', e1, e2, ?_⟩
          simpa [templateFieldsAgree, het] using hag
      have details_eq := buildEventAlertMessage_congr rule resp resp' htot hag
      by_cases hat : rule.alertText = ""
      · simp [BuildAlertMessage, het, hat, details_eq]
      · simp [BuildAlertMessage, het, hat, details_eq, hcust hat]
    · -- logging templates (plain and system-component variant)
      have hag : (resp.hits = [] ∧ resp'.hits = []) ∨
          (∃ h h' t t', resp.hits = h :: t ∧ resp'.hits = h' :: t' ∧
            loggingFieldsAgree h.source h'.source) := by
        rcases hcase with ⟨h1, h2⟩ | ⟨h, h', t, t', e1, e2, hag, _⟩
        · exact Or.inl ⟨h1, h2⟩
        · refine Or.inr ⟨h, h', t, t', e1, e2, ?_⟩
          simpa [templateFieldsAgree, het] using hag
      have details_eq :
          (if strContains rule.name "系统组件" then
            buildSystemComponentLoggingAlertMessage rule resp
          else buildLoggingAlertMessage rule resp) =
          (if strContains rule.name "系统组件" then
            buildSystemComponentLoggingAlertMessage rule resp'
          else buildLoggingAlertMessage rule resp') := by
        by_cases hsc : strContains rule.name "系统组件" = true
        · simp only [hsc, if_true]
          exact buildSystemComponentLoggingAlertMessage_congr rule resp resp'
            htot hag
        · simp only [Bool.not_eq_true] at hsc
          simp only [hsc, Bool.false_eq_true, if_false]
          exact buildLoggingAlertMessage_congr rule resp resp' htot hag
      by_cases hat : rule.alertText = ""
      · simp [BuildAlertMessage, het, hat, details_eq]
      · simp [BuildAlertMessage, het, hat, details_eq, hcust hat]
    · -- auditing template
      have hag : (resp.hits = [] ∧ resp'.hits = []) ∨
          (∃ h h' t t', resp.hits = h :: t ∧ resp'.hits = h' :: t' ∧
            auditingFieldsAgree h.source h'.source) := by
        rcases hcase with ⟨h1, h2⟩ | ⟨h, h', t, t', e1, e2, hag, _⟩
        · exact Or.inl ⟨h1, h2⟩
        · refine Or.inr ⟨h, h', t, t', e1, e2, ?_⟩
          simpa [templateFieldsAgree, het] using hag
      have details_eq := buildAuditingAlertMessage_congr rule resp resp' htot
        hag
      by_cases hat : rule.alertText = ""
      · simp [BuildAlertMessage, het, hat, details_eq]
      · simp [BuildAlertMessage, het, hat, details_eq, hcust hat]
    · exact absurd het hne

/-- Witness for C7 amended: an events rule renders identically at two
instants; two events responses differing only in a field the template does
not read render identically; two logging responses differing only in an
unread field render identically; and a custom-text logging rule rendered on
path-identical sources renders identically. -/
theorem c7_render_deterministic_amended_witness :
    BuildAlertMessage ⟨"r7", "frequency", "k8s-events", 1, 60, "", [], "High"⟩
        ⟨3, []⟩ 0 =
      BuildAlertMessage ⟨"r7", "frequency", "k8s-events", 1, 60, "", [], "High"⟩
        ⟨3, []⟩ 999 ∧
    BuildAlertMessage ⟨"r7", "frequency", "k8s-events", 1, 60, "", [], "High"⟩
        ⟨3, [⟨"i", "1", [("reason", .str "Failed"), ("junk", .str "a")]⟩]⟩ 0 =
      BuildAlertMessage ⟨"r7", "frequency", "k8s-events", 1, 60, "", [], "High"⟩
        ⟨3, [⟨"i", "1", [("reason", .str "Failed"), ("junk", .str "b")]⟩]⟩ 0 ∧
    BuildAlertMessage ⟨"r7", "frequency", "ks-logging", 1, 60, "", [], "High"⟩
        ⟨2, [⟨"i", "1", [("log", .str "oops"), ("junk", .str "a")]⟩]⟩ 0 =
      BuildAlertMessage ⟨"r7", "frequency", "ks-logging", 1, 60, "", [], "High"⟩
        ⟨2, [⟨"i", "1", [("log", .str "oops"), ("junk", .str "b")]⟩]⟩ 0 ∧
    BuildAlertMessage
        ⟨"r7", "frequency", "ks-logging", 1, 60, "Pod $\x7bkubernetes.pod_name\x7d",
          ["log"], "High"⟩
        ⟨2, [⟨"i", "1", [("log", .str "oops")]⟩]⟩ 0 =
      BuildAlertMessage
        ⟨"r7", "frequency", "ks-logging", 1, 60, "Pod $\x7bkubernetes.pod_name\x7d",
          ["log"], "High"⟩
        ⟨2, [⟨"i", "1", [("log", .str "oops")]⟩]⟩ 0 := by
  refine ⟨?_, ?_, ?_, ?_⟩
  · exact c7_render_deterministic_amended.1
      ⟨"r7", "frequency", "k8s-events", 1, 60, "", [], "High"⟩ ⟨3, []⟩ 0 999
      (by decide)
  · exact c7_render_deterministic_amended.2
      ⟨"r7", "frequency", "k8s-events", 1, 60, "", [], "High"⟩
      ⟨3, [⟨"i", "1", [("reason", .str "Failed"), ("junk", .str "a")]⟩]⟩
      ⟨3, [⟨"i", "1", [("reason", .str "Failed"), ("junk", .str "b")]⟩]⟩ 0
      (by decide) rfl
      (Or.inr ⟨⟨"i", "1", [("reason", .str "Failed"), ("junk", .str "a")]⟩,
        ⟨"i", "1", [("reason", .str "Failed"), ("junk", .str "b")]⟩, [], [],
        rfl, rfl,
        by exact ⟨rfl, rfl, rfl, rfl, rfl, rfl, rfl, rfl, rfl⟩,
        fun hx => absurd rfl hx⟩)
  · exact c7_render_deterministic_amended.2
      ⟨"r7", "frequency", "ks-logging", 1, 60, "", [], "High"⟩
      ⟨2, [⟨"i", "1", [("log", .str "oops"), ("junk", .str "a")]⟩]⟩
      ⟨2, [⟨"i", "1", [("log", .str "oops"), ("junk", .str "b")]⟩]⟩ 0
      (by decide) rfl
      (Or.inr ⟨⟨"i", "1", [("log", .str "oops"), ("junk", .str "a")]⟩,
        ⟨"i", "1", [("log", .str "oops"), ("junk", .str "b")]⟩, [], [],
        rfl, rfl,
        by exact ⟨rfl, rfl, rfl, rfl, rfl, rfl⟩,
        fun hx => absurd rfl hx⟩)
  · exact c7_render_deterministic_amended.2
      ⟨"r7", "frequency", "ks-logging", 1, 60, "Pod $\x7bkubernetes.pod_name\x7d",
        ["log"], "High"⟩
      ⟨2, [⟨"i", "1", [("log", .str "oops")]⟩]⟩
      ⟨2, [⟨"i", "1", [("log", .str "oops")]⟩]⟩ 0
      (by decide) rfl
      (Or.inr ⟨⟨"i", "1", [("log", .str "oops")]⟩,
        ⟨"i", "1", [("log", .str "oops")]⟩, [], [], rfl, rfl,
        by exact ⟨rfl, rfl, rfl, rfl, rfl, rfl⟩,
        fun _ => fun _ => rfl⟩)

/-- Folding the per-adapter dispatch block over any channel list dispatches
exactly to the enabled channels and collects exactly the errors of the
enabled failing adapters. -/
theorem sendStep_foldl (cfg : NotifierConfig) (out : SendOutcomes) :
    ∀ (cs : List Channel) (acc : List Channel × List String),
      cs.foldl (sendStep cfg out) acc =
        (acc.1 ++ cs.filter (fun c => cfg.enabled c),
         acc.2 ++ (cs.filter (fun c => cfg.enabled c)).filterMap out.err) := by
  intro cs
  induction cs with
  | nil => intro acc; simp
  | cons c cs ih =>
      intro acc
      rw [List.foldl_cons, ih]
      by_cases h : cfg.enabled c = true
      · rcases he : out.err c with _ | e <;>
          simp [sendStep, h, he, List.filter_cons]
      · simp only [Bool.not_eq_true] at h
        simp [sendStep, h, List.filter_cons]

/-- C8.  `SendAlert` dispatches to exactly the enabled adapters, collects
exactly the errors the enabled adapters produced (the wait-all barrier: the
result reflects every spawned adapter's outcome), and returns nil
unconditionally, however many adapters failed. -/
theorem c8_sendalert_contract :
    ∀ (cfg : NotifierConfig) (out : SendOutcomes),
      (SendAlert cfg out).ret = none ∧
      (∀ c : Channel,
        c ∈ (SendAlert cfg out).dispatched ↔ cfg.enabled c = true) ∧
      (SendAlert cfg out).collected =
        (SendAlert cfg out).dispatched.filterMap out.err := by
  intro cfg out
  have hfold := sendStep_foldl cfg out
    [Channel.email, Channel.dingtalk, Channel.wechat, Channel.feishu] ([], [])
  refine ⟨rfl, ?_, ?_⟩
  · intro c
    show c ∈ (SendAlert cfg out).dispatched ↔ _
    simp only [SendAlert, hfold, List.nil_append]
    rw [List.mem_filter]
    constructor
    · rintro ⟨_, h2⟩; exact h2
    · intro h; exact ⟨by cases c <;> simp, h⟩
  · simp only [SendAlert, hfold, List.nil_append]

/-- C9 counterexample.  The claim asserts `matches ≤ count` for every
response the engine accepts, but the engine performs no validation: a
decodable response reporting `total.value = 0` while returning one hit is
accepted, trips a `frequency` rule with threshold 0, and yields an alert
with `matches = 1 > count = 0`. -/
theorem c9_matches_can_exceed_count :
    shouldTriggerAlert "frequency" (0 : Int) 0 = true ∧
    (triggerAlert false false []
        ⟨"r9", "frequency", "myidx", 0, 60, "", [], "High"⟩
        ⟨0, [⟨"i", "1", []⟩]⟩ 0).1.count = 0 ∧
    (triggerAlert false false []
        ⟨"r9", "frequency", "myidx", 0, 60, "", [], "High"⟩
        ⟨0, [⟨"i", "1", []⟩]⟩ 0).1.matches' = 1 ∧
    ¬ ((triggerAlert false false []
        ⟨"r9", "frequency", "myidx", 0, 60, "", [], "High"⟩
        ⟨0, [⟨"i", "1", []⟩]⟩ 0).1.matches' ≤
       (triggerAlert false false []
        ⟨"r9", "frequency", "myidx", 0, 60, "", [], "High"⟩
        ⟨0, [⟨"i", "1", []⟩]⟩ 0).1.count) :=
  ⟨rfl, rfl, rfl, by decide⟩

/-- C9 amended.  `triggerAlert` copies `count` from the response's
`hits.total.value` and `matches` from the number of returned hits verbatim,
with no validation; consequently `matches ≤ count` holds exactly when the
response itself satisfies `len(hits) ≤ total.value` (which a faithful search
store reports, but the engine does not enforce). -/
theorem c9_matches_count_amended :
    ∀ (selectErr updateErr : Bool) (store : DedupStore) (rule : AlertRule)
      (resp : OpenSearchResponse) (now : Int),
      (triggerAlert selectErr updateErr store rule resp now).1.count =
        resp.totalValue ∧
      (triggerAlert selectErr updateErr store rule resp now).1.matches' =
        (resp.hits.length : Int) ∧
      ((resp.hits.length : Int) ≤ resp.totalValue →
        (triggerAlert selectErr updateErr store rule resp now).1.matches' ≤
          (triggerAlert selectErr updateErr store rule resp now).1.count) := by
  intro se ue store rule resp now
  refine ⟨rfl, rfl, ?_⟩
  intro h
  exact h

/-- Witness for C9 amended: a well-formed response (1 hit, total 5) yields
an alert with `matches ≤ count`. -/
theorem c9_matches_count_amended_witness :
    (triggerAlert false false []
        ⟨"r9w", "any", "idx", 0, 60, "", [], "High"⟩
        ⟨5, [⟨"i", "1", []⟩]⟩ 3).1.matches' ≤
      (triggerAlert false false []
        ⟨"r9w", "any", "idx", 0, 60, "", [], "High"⟩
        ⟨5, [⟨"i", "1", []⟩]⟩ 3).1.count :=
  (c9_matches_count_amended false false []
      ⟨"r9w", "any", "idx", 0, 60, "", [], "High"⟩
      ⟨5, [⟨"i", "1", []⟩]⟩ 3).2.2 (by decide)

/-- C10.  `ShouldSendAndTouch` normalises a non-positive `ttlSeconds` to the
default 120 before doing anything else (database.go:599-601), so a call with
`ttlSeconds ≤ 0` behaves exactly — same result, same error, same table
state — as the same call with 120. -/
theorem c10_nonpositive_ttl_defaults :
    ∀ (selectErr updateErr : Bool) (store : DedupStore) (key : String)
      (now ttl : Int), ttl ≤ 0 →
      ShouldSendAndTouch selectErr updateErr store key now ttl =
        ShouldSendAndTouch selectErr updateErr store key now 120 := by
  intro se ue store key now ttl h
  simp only [ShouldSendAndTouch]
  rw [show (if (120 : Int) ≤ 0 then (120 : Int) else 120) =
      (if ttl ≤ 0 then (120 : Int) else ttl) from by
    rw [if_pos h]; norm_num]

/-- Witness for C10 at `ttlSeconds = 0` (and `= -5`) on a concrete store. -/
theorem c10_nonpositive_ttl_defaults_witness :
    ShouldSendAndTouch false false [("k", 950)] "k" 1000 0 =
      ShouldSendAndTouch false false [("k", 950)] "k" 1000 120 ∧
    ShouldSendAndTouch false false [("k", 950)] "k" 1000 (-5) =
      ShouldSendAndTouch false false [("k", 950)] "k" 1000 120 :=
  ⟨c10_nonpositive_ttl_defaults false false [("k", 950)] "k" 1000 0
      (by omega),
   c10_nonpositive_ttl_defaults false false [("k", 950)] "k" 1000 (-5)
      (by omega)⟩

end OpensearchAlert
